import Mathlib

/-!
Verification development for the options metrics & alerting engine of the
`posicionador_institucional` package.

The Python analyzers operate on a pandas `DataFrame` whose rows are option
contracts.  We embed that table as an explicit list of contract records plus
the dynamic aspects of a data frame that the code interrogates or mutates:
which optional columns exist (`itm_otm`, `moneyness`) and the extra numeric
columns added by assignments such as `options_data['vol_oi_individual'] = ...`.

Numbers: `volume` and `openInterest` are non-negative integers in the data
model; prices, moneyness and every derived ratio are exact rationals (the
Python floats carry no NaN/∞ on the paths modelled here because every
division is guarded, which is exactly what several claims assert).

Human-readable message strings are modelled by plain concatenation with
`toString` on rationals; Python's fixed-point formatting (`:.2f`, `:.1%`)
is abstracted away, only the numeric payloads are kept exact.
-/

/-- One option contract row of the snapshot table
(columns used by the analyzers: `tipo`, `strike`, `volume`, `openInterest`,
`moneyness`, `itm_otm`).  `moneyness = strike / underlying` and the ITM/OTM
label are computed upstream by the data manager. -/
structure Contrato where
  tipo : String
  strike : ℚ
  volume : ℕ
  openInterest : ℕ
  moneyness : ℚ
  itm_otm : String
deriving DecidableEq

/-- The snapshot table: contract rows, the presence flags for the two optional
columns the analyzers test with `'itm_otm' in options_data.columns` and
`'moneyness' in options_data.columns`, and the dynamically added numeric
columns (name, values). -/
structure DataFrame where
  contratos : List Contrato
  hasItmOtm : Bool
  hasMoneyness : Bool
  extraCols : List (String × List ℚ)
deriving DecidableEq

/-- `df[col] = valores`: pandas overwrites an existing column in place
(keeping its position) or appends a new one. -/
def dfSetCol (df : DataFrame) (nombre : String) (valores : List ℚ) : DataFrame :=
  if df.extraCols.any (fun kv => kv.1 == nombre) then
    { df with extraCols := df.extraCols.map (fun kv => if kv.1 == nombre then (nombre, valores) else kv) }
  else
    { df with extraCols := df.extraCols ++ [(nombre, valores)] }

/-- Row filter by the `tipo` column (`options_data['tipo'] == 'CALL'`). -/
def esTipo (t : String) (c : Contrato) : Bool := c.tipo == t

/-- `df['volume'].sum()` over a row selection. -/
def volSum (l : List Contrato) : ℕ := (l.map (fun c => c.volume)).sum

/-- `df['openInterest'].sum()` over a row selection. -/
def oiSum (l : List Contrato) : ℕ := (l.map (fun c => c.openInterest)).sum

namespace Config

/-- `Config.UMBRAL_PCR_DEFENSIVO = 1.2` -/
def UMBRAL_PCR_DEFENSIVO : ℚ := 6/5

/-- `Config.UMBRAL_ROTACION = 0.8` -/
def UMBRAL_ROTACION : ℚ := 4/5

/-- `Config.PERCENTIL_VOLUMEN_ALTO = 95` -/
def PERCENTIL_VOLUMEN_ALTO : ℚ := 95

/-- `Config.SECTORES` (sector → member symbols). -/
def SECTORES : List (String × List String) :=
  [("Indices", ["SPY", "QQQ", "IWM", "DIA"]),
   ("Tecnologicas", ["AAPL", "MSFT", "GOOGL", "AMZN", "NVDA", "TSLA"]),
   ("Energia", ["XOM", "CVX", "COP", "SLB", "EOG", "MPC"]),
   ("Financieras", ["JPM", "BAC", "WFC", "GS", "MS"]),
   ("Salud", ["JNJ", "PFE", "UNH", "MRK", "ABT"])]

end Config

/-- `Config.get_simbolo_sector`: first sector whose member list contains the
symbol, else `'Unknown'`. -/
def getSimboloSector (simbolo : String) : String :=
  match Config.SECTORES.find? (fun sl => sl.2.contains simbolo) with
  | some sl => sl.1
  | none => "Unknown"

/-- Per-contract rotation: `np.where(openInterest > 0, volume / openInterest, 0)`
(the selected value; `np.where` discards the unguarded division's NaN branch). -/
def rotacion (c : Contrato) : ℚ :=
  if 0 < c.openInterest then (c.volume : ℚ) / (c.openInterest : ℚ) else 0

/-- Descending comparison used to model `nlargest` / `sort_values(ascending=False)`. -/
def geNat (a b : ℕ) : Prop := b ≤ a

instance : DecidableRel geNat := fun a b => Nat.decLe b a

instance : IsTotal ℕ geNat := ⟨fun a b => Nat.le_total b a⟩

instance : IsTrans ℕ geNat := ⟨fun _ _ _ h1 h2 => Nat.le_trans h2 h1⟩

/-- `df.nlargest(k, col)[col].sum()`: the sum of the `k` largest values of the
column (ties: pandas keeps first-encountered rows, but the top-`k` sum does not
depend on the tie-break). -/
def nlargestSum (k : ℕ) (l : List ℕ) : ℕ :=
  ((List.insertionSort geNat l).take k).sum

/-- `Series.quantile(q)` with pandas' default linear interpolation:
position `h = q*(n-1)` into the ascending sorted values, interpolating between
the neighbouring order statistics. -/
def quantileLinear (q : ℚ) (l : List ℕ) : ℚ :=
  let s := List.insertionSort (fun a b : ℕ => a ≤ b) l
  let h := q * ((l.length : ℚ) - 1)
  let i := h.floor.toNat
  let lo : ℚ := (s.getD i 0 : ℕ)
  let hi : ℚ := (s.getD (i + 1) (s.getD i 0) : ℕ)
  lo + (h - (i : ℚ)) * (hi - lo)

/-- The dictionary produced by `VolumeAnalyzer.analyze` on valid data.
The `vol_itm`/`vol_otm`/`itm_otm_ratio` keys exist only when the `itm_otm`
column does, and `vol_put_call_ponderado` only when `moneyness` does;
absent keys are `none`. -/
structure VolAnalysis where
  vol_total : ℕ
  vol_calls : ℕ
  vol_puts : ℕ
  vol_put_call_ratio : ℚ
  vol_itm : Option ℕ
  vol_otm : Option ℕ
  itm_otm_ratio : Option ℚ
  rotacion_promedio : ℚ
  alta_rotacion_count : ℕ
  contratos_alta_actividad : ℕ
  vol_alta_actividad : ℕ
  vol_put_call_ponderado : Option ℚ
deriving DecidableEq

/-- `options_data['volume'].sum()` restricted to CALL rows. -/
def volCallsDf (df : DataFrame) : ℕ := volSum (df.contratos.filter (esTipo "CALL"))

/-- `options_data['volume'].sum()` restricted to PUT rows. -/
def volPutsDf (df : DataFrame) : ℕ := volSum (df.contratos.filter (esTipo "PUT"))

/-- `vol_puts / vol_calls if vol_calls > 0 else 0`. -/
def volPutCallRatioDf (df : DataFrame) : ℚ :=
  if 0 < volCallsDf df then (volPutsDf df : ℚ) / (volCallsDf df : ℚ) else 0

/-- The `vol_oi_individual` column values. -/
def rotacionCol (df : DataFrame) : List ℚ := df.contratos.map rotacion

/-- `options_data['vol_oi_individual'].mean()` = sum over length of the column. -/
def rotacionPromedioDf (df : DataFrame) : ℚ :=
  (rotacionCol df).sum / ((rotacionCol df).length : ℚ)

/-- `len(options_data[options_data['vol_oi_individual'] > 1.0])`. -/
def altaRotacionCountDf (df : DataFrame) : ℕ :=
  (df.contratos.filter (fun c => decide (1 < rotacion c))).length

/-- `options_data['volume'].quantile(PERCENTIL_VOLUMEN_ALTO / 100)`. -/
def qPercentilDf (df : DataFrame) : ℚ :=
  quantileLinear (Config.PERCENTIL_VOLUMEN_ALTO / 100) (df.contratos.map (fun c => c.volume))

/-- `contratos_alta = options_data[options_data['volume'] > q_percentil]`. -/
def contratosAltaDf (df : DataFrame) : List Contrato :=
  df.contratos.filter (fun c => decide (qPercentilDf df < (c.volume : ℚ)))

/-- `peso_distancia = 1 / (abs(moneyness - 1) + 0.01)`. -/
def pesoDistancia (c : Contrato) : ℚ := 1 / (|c.moneyness - 1| + 1/100)

/-- `(sel['volume'] * sel['peso_distancia']).sum()` over a row selection. -/
def volPonderado (l : List Contrato) : ℚ :=
  (l.map (fun c => (c.volume : ℚ) * pesoDistancia c)).sum

/-- Weighted CALL volume `vol_calls_pond`. -/
def volCallsPondDf (df : DataFrame) : ℚ := volPonderado (df.contratos.filter (esTipo "CALL"))

/-- Weighted PUT volume `vol_puts_pond`. -/
def volPutsPondDf (df : DataFrame) : ℚ := volPonderado (df.contratos.filter (esTipo "PUT"))

/-- `vol_puts_pond / vol_calls_pond if vol_calls_pond > 0 else 0`. -/
def volPutCallPonderadoDf (df : DataFrame) : ℚ :=
  if 0 < volCallsPondDf df then volPutsPondDf df / volCallsPondDf df else 0

/-- `itm_otm_ratio = vol_itm / vol_otm if vol_otm > 0 else 0` over a column sum pair. -/
def ratioOr0 (a b : ℕ) : ℚ := if 0 < b then (a : ℚ) / (b : ℚ) else 0

/-- The analysis dictionary built by `VolumeAnalyzer.analyze` for a non-empty table. -/
def volumeAnalysisOf (df : DataFrame) : VolAnalysis :=
  { vol_total := volSum df.contratos
    vol_calls := volCallsDf df
    vol_puts := volPutsDf df
    vol_put_call_ratio := volPutCallRatioDf df
    vol_itm := if df.hasItmOtm then some (volSum (df.contratos.filter (fun c => c.itm_otm == "ITM"))) else none
    vol_otm := if df.hasItmOtm then some (volSum (df.contratos.filter (fun c => c.itm_otm == "OTM"))) else none
    itm_otm_ratio := if df.hasItmOtm then
        some (ratioOr0 (volSum (df.contratos.filter (fun c => c.itm_otm == "ITM")))
                       (volSum (df.contratos.filter (fun c => c.itm_otm == "OTM")))) else none
    rotacion_promedio := rotacionPromedioDf df
    alta_rotacion_count := altaRotacionCountDf df
    contratos_alta_actividad := (contratosAltaDf df).length
    vol_alta_actividad := volSum (contratosAltaDf df)
    vol_put_call_ponderado := if df.hasMoneyness then some (volPutCallPonderadoDf df) else none }

/-- The state of the argument table after `VolumeAnalyzer.analyze` ran on it:
the method assigns `options_data['vol_oi_individual']` unconditionally and
`options_data['peso_distancia']` when the `moneyness` column exists. -/
def volumePostState (df : DataFrame) : DataFrame :=
  let df1 := dfSetCol df "vol_oi_individual" (rotacionCol df)
  if df.hasMoneyness then dfSetCol df1 "peso_distancia" (df.contratos.map pesoDistancia) else df1

/-- `VolumeAnalyzer.analyze`.  The input is `none` for a `None` argument;
`BaseAnalyzer._validar_datos` rejects `None` or empty tables, in which case the
method returns the empty dictionary (modelled `none`) and the table untouched.
The second component is the post-state of the (mutated) argument table. -/
def volumeAnalyze (options_data : Option DataFrame) : Option VolAnalysis × Option DataFrame :=
  match options_data with
  | none => (none, none)
  | some df =>
    if df.contratos.isEmpty then (none, some df)
    else (some (volumeAnalysisOf df), some (volumePostState df))

/-- The dictionary produced by `OpenInterestAnalyzer.analyze` on valid data.
The `oi_vencimiento_cercano`/`oi_vencimiento_lejano` and
`top_strike_oi`/`top_strike_oi_value` keys of the source are not modelled:
no claim mentions them and no other code under verification reads them. -/
structure OIAnalysis where
  oi_total : ℕ
  oi_calls : ℕ
  oi_puts : ℕ
  oi_put_call_ratio : ℚ
  oi_concentration : ℚ
  oi_itm : Option ℕ
  oi_otm : Option ℕ
  oi_itm_otm_ratio : Option ℚ
deriving DecidableEq

/-- `top_5_oi = options_data.nlargest(5, 'openInterest')['openInterest'].sum()`:
the five largest individual contract rows by `openInterest` (NOT grouped by
strike — compare `specOiConcentracionPorStrike`). -/
def top5OiDf (df : DataFrame) : ℕ := nlargestSum 5 (df.contratos.map (fun c => c.openInterest))

/-- `oi_concentration = top_5_oi / total_oi * 100 if total_oi > 0 else 0`. -/
def oiConcentrationDf (df : DataFrame) : ℚ :=
  if 0 < oiSum df.contratos then (top5OiDf df : ℚ) / (oiSum df.contratos : ℚ) * 100 else 0

/-- The analysis dictionary built by `OpenInterestAnalyzer.analyze` for a
non-empty table. -/
def oiAnalysisOf (df : DataFrame) : OIAnalysis :=
  { oi_total := oiSum df.contratos
    oi_calls := oiSum (df.contratos.filter (esTipo "CALL"))
    oi_puts := oiSum (df.contratos.filter (esTipo "PUT"))
    oi_put_call_ratio := ratioOr0 (oiSum (df.contratos.filter (esTipo "PUT")))
                                  (oiSum (df.contratos.filter (esTipo "CALL")))
    oi_concentration := oiConcentrationDf df
    oi_itm := if df.hasItmOtm then some (oiSum (df.contratos.filter (fun c => c.itm_otm == "ITM"))) else none
    oi_otm := if df.hasItmOtm then some (oiSum (df.contratos.filter (fun c => c.itm_otm == "OTM"))) else none
    oi_itm_otm_ratio := if df.hasItmOtm then
        some (ratioOr0 (oiSum (df.contratos.filter (fun c => c.itm_otm == "ITM")))
                       (oiSum (df.contratos.filter (fun c => c.itm_otm == "OTM")))) else none }

/-- `OpenInterestAnalyzer.analyze` (it performs no column assignment on its
argument, so only the analysis dictionary is returned). -/
def openInterestAnalyze (options_data : Option DataFrame) : Option OIAnalysis :=
  match options_data with
  | none => none
  | some df => if df.contratos.isEmpty then none else some (oiAnalysisOf df)

/-- The spec's concentration formula, for comparison with the code: per-strike
aggregate OI (summed across CALL and PUT rows at the same strike, strikes in
first-encountered order), then the top five strike aggregates over total OI. -/
def specOiPorStrike (l : List Contrato) : List ℕ :=
  ((l.map (fun c => c.strike)).dedup).map (fun s => oiSum (l.filter (fun c => decide (c.strike = s))))

/-- The spec's `oi_concentration`: top-5 strike aggregates / total × 100. -/
def specOiConcentracionPorStrike (l : List Contrato) : ℚ :=
  if 0 < oiSum l then (nlargestSum 5 (specOiPorStrike l) : ℚ) / (oiSum l : ℚ) * 100 else 0

/-- The dictionary returned by `EventsAnalyzer.analizar_volumen_pre_evento`
for a non-empty table (`none` models the empty dictionary returned for an
empty one).  Datetimes are embedded as integer POSIX seconds throughout. -/
structure PreEventMetrics where
  pcr_ratio : ℚ
  itm_calls : ℕ
  otm_calls : ℕ
  itm_puts : ℕ
  otm_puts : ℕ
  total_volumen : ℕ
deriving DecidableEq

/-- An event dictionary built by `EventsAnalyzer.detectar_eventos_proximos`.
`volumen_analisis` is the key added later by `analyze` (absent = `none`;
its value is itself the possibly-empty pre-event metrics dictionary). -/
structure Evento where
  simbolo : String
  tipo : String
  fecha : Int
  dias_restantes : Int
  sector : String
  volumen_analisis : Option (Option PreEventMetrics)
deriving DecidableEq

/-- Seconds per day: `timedelta(days=n)` is `n * 86400` seconds. -/
def segundosPorDia : Int := 86400

/-- `EventsAnalyzer.detectar_eventos_proximos`: walk the configured calendar
(category → dates) and keep each date with
`fecha_actual <= fecha <= fecha_actual + timedelta(days=dias_adelante)`.
`datetime.now()` is impure, so the evaluation time is passed explicitly;
the calendar is the `Config.EVENTOS_CALENDARIO` table, passed explicitly. -/
def detectarEventosProximos (calendario : List (String × List Int)) (simbolo : String)
    (fecha_actual : Int) (dias_adelante : Int) : List Evento :=
  let fecha_limite := fecha_actual + dias_adelante * segundosPorDia
  calendario.flatMap (fun tf =>
    (tf.2.filter (fun fecha => decide (fecha_actual ≤ fecha ∧ fecha ≤ fecha_limite))).map
      (fun fecha =>
        { simbolo := simbolo
          tipo := tf.1
          fecha := fecha
          dias_restantes := (fecha - fecha_actual).fdiv segundosPorDia
          sector := getSimboloSector simbolo
          volumen_analisis := none }))

/-- The event dictionary built by `utils.helpers.detectar_eventos_proximos`
(same window logic, no symbol/sector fields). -/
structure EventoH where
  tipo : String
  fecha : Int
  dias_restantes : Int
deriving DecidableEq

/-- `utils.helpers.detectar_eventos_proximos`. -/
def detectarEventosProximosHelper (eventos_calendario : List (String × List Int))
    (fecha_actual : Int) (dias_adelante : Int) : List EventoH :=
  let fecha_limite := fecha_actual + dias_adelante * segundosPorDia
  eventos_calendario.flatMap (fun tf =>
    (tf.2.filter (fun fecha => decide (fecha_actual ≤ fecha ∧ fecha ≤ fecha_limite))).map
      (fun fecha =>
        { tipo := tf.1
          fecha := fecha
          dias_restantes := (fecha - fecha_actual).fdiv segundosPorDia }))

/-- `EventsAnalyzer.analizar_volumen_pre_evento` (its `evento` parameter is
unused in the source body and therefore not modelled). -/
def analizarVolumenPreEvento (opciones_data : DataFrame) : Option PreEventMetrics :=
  if opciones_data.contratos.isEmpty then none
  else
    let l := opciones_data.contratos
    let total_calls := volSum (l.filter (esTipo "CALL"))
    let total_puts := volSum (l.filter (esTipo "PUT"))
    some
      { pcr_ratio := if 0 < total_calls then (total_puts : ℚ) / (total_calls : ℚ) else 0
        itm_calls := volSum (l.filter (fun c => esTipo "CALL" c && decide (1 < c.moneyness)))
        otm_calls := volSum (l.filter (fun c => esTipo "CALL" c && decide (c.moneyness ≤ 1)))
        itm_puts := volSum (l.filter (fun c => esTipo "PUT" c && decide (c.moneyness < 1)))
        otm_puts := volSum (l.filter (fun c => esTipo "PUT" c && decide (1 ≤ c.moneyness)))
        total_volumen := volSum l }

/-- Python-dict insertion: overwrite an existing key in place, else append. -/
def dictInsert (k : String) (v : Option PreEventMetrics) :
    List (String × Option PreEventMetrics) → List (String × Option PreEventMetrics)
  | [] => [(k, v)]
  | kv :: rest => if kv.1 == k then (kv.1, v) :: rest else kv :: dictInsert k v rest

/-- The dictionary returned by `EventsAnalyzer.analyze`
(`concentracion_vencimientos` is not modelled: no claim reads it). -/
structure AnalisisEventos where
  eventos : List Evento
  metricas_pre_evento : List (String × Option PreEventMetrics)
  cantidad_eventos : ℕ
deriving DecidableEq

/-- `EventsAnalyzer.analyze` for a provided table: detect the upcoming events
(default 90-day lookahead), attach the pre-event volume metrics to each event
and key them by event category.  (The source path that re-fetches data via the
`data_manager` when none is provided is external I/O and not modelled.) -/
def eventsAnalyze (calendario : List (String × List Int)) (simbolo : String)
    (fecha_actual : Int) (opciones_data : DataFrame) : AnalisisEventos :=
  let eventos0 := detectarEventosProximos calendario simbolo fecha_actual 90
  let metricas := analizarVolumenPreEvento opciones_data
  let eventos := eventos0.map (fun e => { e with volumen_analisis := some metricas })
  { eventos := eventos
    metricas_pre_evento := eventos0.foldl (fun acc e => dictInsert e.tipo metricas acc) []
    cantidad_eventos := eventos.length }

/-- An alert dictionary emitted by `EventsAnalyzer.get_alerts`
(`descripcion` keeps the exact numeric payload via `toString`). -/
structure AlertaEvento where
  tipo : String
  prioridad : String
  descripcion : String
  valor : ℚ
  umbral : Option ℚ
deriving DecidableEq

/-- `f"Put/Call ratio elevado ({pcr:.2f}) antes de {tipo_evento}"`. -/
def descDefensiva (pcr : ℚ) (tipo_evento : String) : String :=
  "Put/Call ratio elevado (" ++ toString pcr ++ ") antes de " ++ tipo_evento

/-- `f"Put/Call ratio bajo ({pcr:.2f}) antes de {tipo_evento}"`. -/
def descOfensiva (pcr : ℚ) (tipo_evento : String) : String :=
  "Put/Call ratio bajo (" ++ toString pcr ++ ") antes de " ++ tipo_evento

/-- The defensive pre-event alert row (threshold 1.5, MEDIA priority, as in the
source; the spec's table says 1.2/HIGH — see the C2 theorems). -/
def alertaDefensiva (pcr : ℚ) (tipo_evento : String) : AlertaEvento :=
  { tipo := "VOLUMEN_DEFENSIVO_PRE_EVENTO"
    prioridad := "MEDIA"
    descripcion := descDefensiva pcr tipo_evento
    valor := pcr
    umbral := some (3/2) }

/-- The offensive pre-event alert row. -/
def alertaOfensiva (pcr : ℚ) (tipo_evento : String) : AlertaEvento :=
  { tipo := "VOLUMEN_OFENSIVO_PRE_EVENTO"
    prioridad := "MEDIA"
    descripcion := descOfensiva pcr tipo_evento
    valor := pcr
    umbral := some (7/10) }

/-- The alerts contributed by one entry of `metricas_pre_evento`:
`pcr = metricas.get('pcr_ratio', 0)`, then `> 1.5` → defensive,
`elif 0 < pcr < 0.7` → offensive. -/
def alertasPreEvento (tm : String × Option PreEventMetrics) : List AlertaEvento :=
  let pcr := ((tm.2.map (fun m => m.pcr_ratio)).getD 0)
  if 3/2 < pcr then [alertaDefensiva pcr tm.1]
  else if 0 < pcr ∧ pcr < 7/10 then [alertaOfensiva pcr tm.1]
  else []

/-- `EventsAnalyzer.get_alerts`.  `none` models both `None` and the empty
dictionary (both falsy in `if not analisis_resultado`).  The
`'metricas_pre_evento' in analisis_resultado` key check always succeeds on the
dictionaries `analyze` produces, which the structure model reflects. -/
def eventsGetAlerts (simbolo : String) (analisis_resultado : Option AnalisisEventos) :
    List AlertaEvento :=
  match analisis_resultado with
  | none => []
  | some a =>
    let eventos := a.eventos
    let inminentes := eventos.filter (fun e => decide (e.dias_restantes < 7))
    let a1 : List AlertaEvento :=
      if inminentes.isEmpty then []
      else
        [{ tipo := "EVENTO_INMINENTE"
           prioridad := "ALTA"
           descripcion := "Evento inminente en " ++ toString inminentes.length ++ " dia(s): "
             ++ String.intercalate ", " (inminentes.map (fun e => e.tipo))
           valor := (inminentes.length : ℚ)
           umbral := none }]
    let a2 : List AlertaEvento :=
      if eventos.isEmpty then [] else a.metricas_pre_evento.flatMap alertasPreEvento
    let a3 : List AlertaEvento :=
      if 3 < eventos.length then
        [{ tipo := "MULTIPLES_EVENTOS"
           prioridad := "MEDIA"
           descripcion := "Multiples eventos proximos: " ++ toString eventos.length
             ++ " eventos en proximos 90 dias"
           valor := (eventos.length : ℚ)
           umbral := none }]
      else []
    a1 ++ a2 ++ a3

/-- An alert dictionary emitted by the volume / open-interest analyzers. -/
structure AlertaVol where
  tipo : String
  prioridad : String
  valor : ℚ
  mensaje : String
deriving DecidableEq

/-- `VolumeAnalyzer.get_alerts`; `none` models the empty dictionary, so every
`analysis_results.get(key, 0)` read yields 0. -/
def volumeGetAlerts (analysis_results : Option VolAnalysis) : List AlertaVol :=
  let pcr := (analysis_results.map (fun a => a.vol_put_call_ratio)).getD 0
  let a1 : List AlertaVol :=
    if Config.UMBRAL_PCR_DEFENSIVO < pcr then
      [{ tipo := "VOLUMEN_PUTS_EXTREMO", prioridad := "ALTA", valor := pcr,
         mensaje := "Volumen PUT/CALL = " ++ toString pcr }]
    else []
  let rot := (analysis_results.map (fun a => a.rotacion_promedio)).getD 0
  let a2 : List AlertaVol :=
    if Config.UMBRAL_ROTACION < rot then
      [{ tipo := "ALTA_ROTACION", prioridad := "MEDIA", valor := rot,
         mensaje := "Rotacion Alta: " ++ toString rot }]
    else []
  let caa := (analysis_results.map (fun a => a.contratos_alta_actividad)).getD 0
  let a3 : List AlertaVol :=
    if 5 < caa then
      [{ tipo := "CONCENTRACION_VOLUMEN", prioridad := "MEDIA", valor := (caa : ℚ),
         mensaje := "Volumen en " ++ toString caa ++ " contratos" }]
    else []
  a1 ++ a2 ++ a3

/-- `OpenInterestAnalyzer.get_alerts`; `none` models the empty dictionary. -/
def oiGetAlerts (analysis_results : Option OIAnalysis) : List AlertaVol :=
  let pcr := (analysis_results.map (fun a => a.oi_put_call_ratio)).getD 0
  let a1 : List AlertaVol :=
    if 13/10 < pcr then
      [{ tipo := "OI_PUTS_EXTREMO", prioridad := "ALTA", valor := pcr,
         mensaje := "OI PUT/CALL = " ++ toString pcr ++ " (Posicion defensiva acumulada)" }]
    else []
  let conc := (analysis_results.map (fun a => a.oi_concentration)).getD 0
  let a2 : List AlertaVol :=
    if 40 < conc then
      [{ tipo := "OI_CONCENTRADO", prioridad := "MEDIA", valor := conc,
         mensaje := "OI concentrado: " ++ toString conc ++ "% en top 5 strikes" }]
    else []
  let oi_ratio := (analysis_results.bind (fun a => a.oi_itm_otm_ratio)).getD 0
  let a3 : List AlertaVol :=
    if 3/2 < oi_ratio ∨ (0 < oi_ratio ∧ oi_ratio < 3/10) then
      [{ tipo := "OI_ITM_OTM_ANOMALO", prioridad := "MEDIA", valor := oi_ratio,
         mensaje := "OI ITM/OTM anomalo: " ++ toString oi_ratio }]
    else []
  a1 ++ a2 ++ a3

/-- A generic alert record for `ordenar_alertas_por_prioridad`, which works on
arbitrary alert dictionaries: the (possibly missing) `'prioridad'` key plus an
opaque payload distinguishing otherwise-equal alerts. -/
structure AlertaG where
  prioridad : Option String
  carga : ℕ
deriving DecidableEq

/-- `orden_prioridad.get(x.get('prioridad', 'BAJA'), 999)` with
`orden_prioridad = {'ALTA': 1, 'MEDIA': 2, 'BAJA': 3}`. -/
def ordenPrioridad (p : Option String) : ℕ :=
  match p with
  | none => 3
  | some s => if s == "ALTA" then 1 else if s == "MEDIA" then 2 else if s == "BAJA" then 3 else 999

/-- The key preorder used by the sort. -/
def ordenRel (a b : AlertaG) : Prop := ordenPrioridad a.prioridad ≤ ordenPrioridad b.prioridad

instance : DecidableRel ordenRel := fun a b => Nat.decLe _ _

instance : IsTotal AlertaG ordenRel := ⟨fun a b => Nat.le_total _ _⟩

instance : IsTrans AlertaG ordenRel := ⟨fun _ _ _ h1 h2 => Nat.le_trans h1 h2⟩

/-- `utils.helpers.ordenar_alertas_por_prioridad`: Python's `sorted` is a
stable sort by the priority rank; a stable sort by a fixed key is uniquely
determined by the input, so it is modelled by stable insertion sort. -/
def ordenarAlertasPorPrioridad (alertas : List AlertaG) : List AlertaG :=
  List.insertionSort ordenRel alertas

/-- Shorthand constructor for contract rows in concrete test snapshots. -/
def mkContrato (t : String) (s : ℚ) (v oi : ℕ) (m : ℚ) (io : String) : Contrato :=
  { tipo := t, strike := s, volume := v, openInterest := oi, moneyness := m, itm_otm := io }

/-- C1 failing input: strike 100 carries the largest aggregate OI (CALL 9 +
PUT 9 = 18) but its two rows are individually smaller than the six 10-OI rows
at strikes 101..106. -/
def dfC1 : DataFrame :=
  { contratos :=
      [mkContrato "CALL" 100 0 9 1 "OTM", mkContrato "PUT" 100 0 9 1 "OTM",
       mkContrato "CALL" 101 0 10 1 "OTM", mkContrato "CALL" 102 0 10 1 "OTM",
       mkContrato "CALL" 103 0 10 1 "OTM", mkContrato "CALL" 104 0 10 1 "OTM",
       mkContrato "CALL" 105 0 10 1 "OTM", mkContrato "CALL" 106 0 10 1 "OTM"]
    hasItmOtm := true
    hasMoneyness := true
    extraCols := [] }

/-- C1 scenario: OI spread evenly across 20 strikes, 5 units each. -/
def dfC1spread : DataFrame :=
  { contratos := (List.range 20).map (fun i => mkContrato "CALL" (100 + i) 0 5 1 "OTM")
    hasItmOtm := false
    hasMoneyness := false
    extraCols := [] }

/-- C1 scenario: all 100 units of OI at a single strike. -/
def dfC1single : DataFrame :=
  { contratos := [mkContrato "CALL" 100 0 100 1 "OTM"]
    hasItmOtm := false
    hasMoneyness := false
    extraCols := [] }

/-- C2 counterexample pre-event metrics: put/call ratio 1.3, which is above the
spec's 1.2 threshold but below the code's 1.5 threshold. -/
def mC2 : PreEventMetrics :=
  { pcr_ratio := 13/10, itm_calls := 0, otm_calls := 10, itm_puts := 0, otm_puts := 13,
    total_volumen := 23 }

/-- C2 counterexample event (inside the lookahead window, 30 days out). -/
def evC2 : Evento :=
  { simbolo := "SPY", tipo := "earnings_season", fecha := 30 * segundosPorDia,
    dias_restantes := 30, sector := "Indices", volumen_analisis := some (some mC2) }

/-- C2 counterexample analysis result. -/
def aC2 : AnalisisEventos :=
  { eventos := [evC2], metricas_pre_evento := [("earnings_season", some mC2)],
    cantidad_eventos := 1 }

/-- C2 witness pre-event metrics: put/call ratio 2 (above the code's 1.5). -/
def mW2 : PreEventMetrics :=
  { pcr_ratio := 2, itm_calls := 0, otm_calls := 5, itm_puts := 0, otm_puts := 10,
    total_volumen := 15 }

/-- C2 witness event. -/
def evW2 : Evento :=
  { simbolo := "AAPL", tipo := "fomc_meetings", fecha := 40 * segundosPorDia,
    dias_restantes := 40, sector := "Tecnologicas", volumen_analisis := some (some mW2) }

/-- C2 witness analysis result. -/
def aW2 : AnalisisEventos :=
  { eventos := [evW2], metricas_pre_evento := [("fomc_meetings", some mW2)],
    cantidad_eventos := 1 }

/-- C3 counterexample input: one contract, `moneyness` column present, no extra
columns yet. -/
def dfC3 : DataFrame :=
  { contratos := [mkContrato "CALL" 100 10 5 1 "OTM"]
    hasItmOtm := true
    hasMoneyness := true
    extraCols := [] }

/-- C3 witness input: non-empty table that already carries an unrelated extra
column. -/
def dfW3 : DataFrame :=
  { contratos := [mkContrato "PUT" 90 3 7 (9/10) "ITM"]
    hasItmOtm := true
    hasMoneyness := true
    extraCols := [("lastPrice", [5/2])] }

/-- C4 witness input: a snapshot whose only contracts are PUTs (CALL volume 0). -/
def dfW4 : DataFrame :=
  { contratos := [mkContrato "PUT" 95 12 4 (19/20) "ITM", mkContrato "PUT" 90 8 2 (9/10) "ITM"]
    hasItmOtm := true
    hasMoneyness := true
    extraCols := [] }

/-- C5 distinguishing input: one low-OI/high-volume contract (rotation 100) and
one high-OI/low-volume contract (rotation 1/100); mean of ratios 10001/200,
ratio of aggregates 1. -/
def dfC5 : DataFrame :=
  { contratos := [mkContrato "CALL" 100 100 1 1 "OTM", mkContrato "CALL" 100 1 100 1 "OTM"]
    hasItmOtm := false
    hasMoneyness := false
    extraCols := [] }

/-- C5 witness input: every contract has `openInterest = 0`. -/
def dfZ5 : DataFrame :=
  { contratos := [mkContrato "CALL" 100 50 0 1 "OTM", mkContrato "PUT" 100 30 0 1 "OTM"]
    hasItmOtm := false
    hasMoneyness := false
    extraCols := [] }

/-- C8 witness input: a table with zero contract rows. -/
def dfEmpty : DataFrame :=
  { contratos := [], hasItmOtm := true, hasMoneyness := true, extraCols := [] }

/-- C9 witness input: one at-the-money CALL (weight 100) and one PUT. -/
def dfW9 : DataFrame :=
  { contratos := [mkContrato "CALL" 100 1 10 1 "OTM", mkContrato "PUT" 100 3 10 1 "OTM"]
    hasItmOtm := true
    hasMoneyness := true
    extraCols := [] }

/-! ## Helper lemmas -/

/-- Filtering on a fixed priority value commutes with `orderedInsert`:
the inserted alert lands in front of the kept occurrences of its own priority
(alerts skipped on the way in have a strictly smaller rank, hence a different
priority value). -/
theorem filter_orderedInsert_prioridad (p : Option String) (x : AlertaG) (m : List AlertaG) :
    (List.orderedInsert ordenRel x m).filter (fun a => a.prioridad == p)
      = if x.prioridad == p then x :: m.filter (fun a => a.prioridad == p)
        else m.filter (fun a => a.prioridad == p) := by
  induction m with
  | nil =>
    cases hx : x.prioridad == p <;> simp [List.orderedInsert, List.filter_cons, hx]
  | cons b bs ih =>
    rw [List.orderedInsert]
    split
    case isTrue h =>
      cases hx : x.prioridad == p <;> simp [List.filter_cons, hx]
    case isFalse h =>
      rw [List.filter_cons, ih]
      cases hx : x.prioridad == p
      case false =>
        cases hb : b.prioridad == p <;> simp [List.filter_cons, hx, hb]
      case true =>
        cases hb : b.prioridad == p
        case false => simp [List.filter_cons, hx, hb]
        case true =>
          exfalso
          apply h
          show ordenPrioridad x.prioridad ≤ ordenPrioridad b.prioridad
          rw [eq_of_beq hx, eq_of_beq hb]

/-- Stability of the alert sort: for each priority value, sorting does not
change the subsequence of alerts carrying that value. -/
theorem filter_insertionSort_prioridad (p : Option String) (l : List AlertaG) :
    (List.insertionSort ordenRel l).filter (fun a => a.prioridad == p)
      = l.filter (fun a => a.prioridad == p) := by
  induction l with
  | nil => rfl
  | cons x xs ih =>
    rw [List.insertionSort, filter_orderedInsert_prioridad, ih, List.filter_cons]

/-- Column assignment leaves the contract rows untouched. -/
theorem dfSetCol_contratos (df : DataFrame) (n : String) (v : List ℚ) :
    (dfSetCol df n v).contratos = df.contratos := by
  unfold dfSetCol
  split <;> rfl

/-- Column assignment leaves the `itm_otm` presence flag untouched. -/
theorem dfSetCol_hasItmOtm (df : DataFrame) (n : String) (v : List ℚ) :
    (dfSetCol df n v).hasItmOtm = df.hasItmOtm := by
  unfold dfSetCol
  split <;> rfl

/-- Column assignment leaves the `moneyness` presence flag untouched. -/
theorem dfSetCol_hasMoneyness (df : DataFrame) (n : String) (v : List ℚ) :
    (dfSetCol df n v).hasMoneyness = df.hasMoneyness := by
  unfold dfSetCol
  split <;> rfl

/-- An extra column with a different name survives a column assignment. -/
theorem mem_dfSetCol_of_ne (df : DataFrame) (n : String) (v : List ℚ)
    (kv : String × List ℚ) (h : kv ∈ df.extraCols) (hne : kv.1 ≠ n) :
    kv ∈ (dfSetCol df n v).extraCols := by
  unfold dfSetCol
  split
  · exact List.mem_map.mpr ⟨kv, h, by simp [hne]⟩
  · exact List.mem_append_left _ h

/-- Every extra column after a column assignment is either an original one or
the assigned name. -/
theorem mem_of_mem_dfSetCol (df : DataFrame) (n : String) (v : List ℚ)
    (kv : String × List ℚ) (h : kv ∈ (dfSetCol df n v).extraCols) :
    kv ∈ df.extraCols ∨ kv.1 = n := by
  unfold dfSetCol at h
  split at h
  · obtain ⟨x, hx, hfx⟩ := List.mem_map.mp h
    by_cases hb : x.1 = n
    · right
      rw [← hfx]
      simp [hb]
    · left
      have hxx : (if x.1 == n then (n, v) else x) = x := by simp [hb]
      rw [hxx] at hfx
      exact hfx ▸ hx
  · rcases List.mem_append.mp h with h1 | h2
    · exact Or.inl h1
    · right
      have : kv = (n, v) := by simpa using h2
      rw [this]

/-- The moneyness weight is strictly positive: its denominator is at least the
0.01 floor. -/
theorem pesoDistancia_pos (c : Contrato) : 0 < pesoDistancia c := by
  unfold pesoDistancia
  have h : (0 : ℚ) < |c.moneyness - 1| + 1/100 := by positivity
  exact div_pos one_pos h

/-- Weighted volume sums are non-negative (non-negative volumes, positive
weights). -/
theorem volPonderado_nonneg (l : List Contrato) : 0 ≤ volPonderado l := by
  apply List.sum_nonneg
  intro x hx
  obtain ⟨c, _, rfl⟩ := List.mem_map.mp hx
  exact mul_nonneg (by positivity) (le_of_lt (pesoDistancia_pos c))

/-! ## Claim theorems -/

/-- C6: for every input list of alerts, `ordenar_alertas_por_prioridad` (used
by `ReportGenerator.consolidar_alertas` as its final step) returns a list in
which no MEDIA-priority alert precedes an ALTA-priority alert, and for every
priority value the subsequence of alerts carrying it is exactly the input's
subsequence (stability). -/
theorem ordenar_alertas_sorted_and_stable (alertas : List AlertaG) :
    List.Pairwise (fun a b => ¬(a.prioridad = some "MEDIA" ∧ b.prioridad = some "ALTA"))
      (ordenarAlertasPorPrioridad alertas)
    ∧ ∀ p : Option String,
        (ordenarAlertasPorPrioridad alertas).filter (fun a => a.prioridad == p)
          = alertas.filter (fun a => a.prioridad == p) := by
  constructor
  · have hs : List.Pairwise ordenRel (List.insertionSort ordenRel alertas) :=
      List.sorted_insertionSort ordenRel alertas
    refine hs.imp ?_
    intro a b hr hc
    rw [ordenRel, hc.1, hc.2] at hr
    exact absurd hr (by decide)
  · intro p
    exact filter_insertionSort_prioridad p alertas

/-- C7: an event for calendar date `d` in category `t` is returned exactly when
`now <= d <= now + dias_adelante` days, both bounds inclusive — for
`EventsAnalyzer.detectar_eventos_proximos` and for the helper
`detectar_eventos_proximos` alike; with a 0-day lookahead a calendar entry
equal to `now` is included and an entry one day later is excluded. -/
theorem detectar_eventos_window_inclusive :
    (∀ (calendario : List (String × List Int)) (simbolo : String) (now n d : Int) (t : String),
        (∃ e ∈ detectarEventosProximos calendario simbolo now n, e.fecha = d ∧ e.tipo = t)
          ↔ ∃ fechas, (t, fechas) ∈ calendario ∧ d ∈ fechas
              ∧ now ≤ d ∧ d ≤ now + n * segundosPorDia)
    ∧ (∀ (calendario : List (String × List Int)) (now n d : Int) (t : String),
        (∃ e ∈ detectarEventosProximosHelper calendario now n, e.fecha = d ∧ e.tipo = t)
          ↔ ∃ fechas, (t, fechas) ∈ calendario ∧ d ∈ fechas
              ∧ now ≤ d ∧ d ≤ now + n * segundosPorDia)
    ∧ (detectarEventosProximos [("earnings_season", [0])] "SPY" 0 0).map (fun e => e.fecha) = [0]
    ∧ detectarEventosProximos [("earnings_season", [segundosPorDia])] "SPY" 0 0 = [] := by
  refine ⟨?_, ?_, by decide, by decide⟩
  · intro calendario simbolo now n d t
    constructor
    · rintro ⟨e, he, hfe, hte⟩
      rw [detectarEventosProximos] at he
      obtain ⟨tf, htf, hm⟩ := List.mem_flatMap.mp he
      obtain ⟨fecha, hf, rfl⟩ := List.mem_map.mp hm
      obtain ⟨hfin, hwin⟩ := List.mem_filter.mp hf
      have hw := of_decide_eq_true hwin
      refine ⟨tf.2, ?_, ?_, ?_, ?_⟩
      · rw [← hte]
        exact (Prod.mk.eta (p := tf)) ▸ htf
      · exact hfe ▸ hfin
      · exact hfe ▸ hw.1
      · exact hfe ▸ hw.2
    · rintro ⟨fechas, hcal, hd, h1, h2⟩
      refine ⟨{ simbolo := simbolo, tipo := t, fecha := d,
                dias_restantes := (d - now).fdiv segundosPorDia,
                sector := getSimboloSector simbolo, volumen_analisis := none }, ?_, rfl, rfl⟩
      rw [detectarEventosProximos]
      refine List.mem_flatMap.mpr ⟨(t, fechas), hcal, ?_⟩
      exact List.mem_map.mpr ⟨d, List.mem_filter.mpr ⟨hd, decide_eq_true ⟨h1, h2⟩⟩, rfl⟩
  · intro calendario now n d t
    constructor
    · rintro ⟨e, he, hfe, hte⟩
      rw [detectarEventosProximosHelper] at he
      obtain ⟨tf, htf, hm⟩ := List.mem_flatMap.mp he
      obtain ⟨fecha, hf, rfl⟩ := List.mem_map.mp hm
      obtain ⟨hfin, hwin⟩ := List.mem_filter.mp hf
      have hw := of_decide_eq_true hwin
      refine ⟨tf.2, ?_, ?_, ?_, ?_⟩
      · rw [← hte]
        exact (Prod.mk.eta (p := tf)) ▸ htf
      · exact hfe ▸ hfin
      · exact hfe ▸ hw.1
      · exact hfe ▸ hw.2
    · rintro ⟨fechas, hcal, hd, h1, h2⟩
      refine ⟨{ tipo := t, fecha := d,
                dias_restantes := (d - now).fdiv segundosPorDia }, ?_, rfl, rfl⟩
      rw [detectarEventosProximosHelper]
      refine List.mem_flatMap.mpr ⟨(t, fechas), hcal, ?_⟩
      exact List.mem_map.mpr ⟨d, List.mem_filter.mpr ⟨hd, decide_eq_true ⟨h1, h2⟩⟩, rfl⟩

/-- C8: both `VolumeAnalyzer.analyze` and `OpenInterestAnalyzer.analyze`
return the empty result (no error) for a `None` snapshot and for a snapshot
with zero contract rows. -/
theorem analyze_no_data_empty_result :
    (volumeAnalyze none).1 = none
    ∧ openInterestAnalyze none = none
    ∧ ∀ df : DataFrame, df.contratos = [] →
        (volumeAnalyze (some df)).1 = none ∧ openInterestAnalyze (some df) = none := by
  refine ⟨rfl, rfl, fun df h => ?_⟩
  have he : df.contratos.isEmpty = true := by simp [h]
  constructor
  · simp [volumeAnalyze, he]
  · simp [openInterestAnalyze, he]

/-- C8 witness: the empty table is rejected by both analyzers. -/
theorem analyze_no_data_empty_result_witness :
    dfEmpty.contratos = []
    ∧ (volumeAnalyze (some dfEmpty)).1 = none ∧ openInterestAnalyze (some dfEmpty) = none :=
  ⟨by decide, analyze_no_data_empty_result.2.2 dfEmpty (by decide)⟩

/-- C10: every analyzer's alert generator, fed the empty "no data" metrics
result, fires no threshold rule and returns the empty alert list. -/
theorem get_alerts_empty_metrics_no_alerts :
    volumeGetAlerts none = [] ∧ oiGetAlerts none = []
    ∧ ∀ simbolo : String, eventsGetAlerts simbolo none = [] := by
  refine ⟨?_, ?_, fun simbolo => rfl⟩
  · norm_num [volumeGetAlerts, Config.UMBRAL_PCR_DEFENSIVO, Config.UMBRAL_ROTACION]
  · norm_num [oiGetAlerts]

/-- A non-empty list has `isEmpty = false`. -/
theorem isEmpty_false_of_ne_nil {α : Type*} {l : List α} (h : l ≠ []) : l.isEmpty = false := by
  cases l
  · exact absurd rfl h
  · rfl

/-- On a non-empty table, `VolumeAnalyzer.analyze` returns the full analysis
dictionary. -/
theorem volumeAnalyze_some (df : DataFrame) (h : df.contratos ≠ []) :
    (volumeAnalyze (some df)).1 = some (volumeAnalysisOf df) := by
  simp [volumeAnalyze, isEmpty_false_of_ne_nil h]

/-- C4: for every non-empty snapshot, `vol_put_call_ratio` is 0 when the CALL
volume total is 0 (no NaN/∞/division error is possible in this exact-rational
model), and equals `vol_puts / vol_calls` otherwise. -/
theorem vol_put_call_ratio_zero_floor (df : DataFrame) (h : df.contratos ≠ []) :
    (volumeAnalyze (some df)).1 = some (volumeAnalysisOf df)
    ∧ (volCallsDf df = 0 → (volumeAnalysisOf df).vol_put_call_ratio = 0)
    ∧ (volCallsDf df ≠ 0 →
        (volumeAnalysisOf df).vol_put_call_ratio = (volPutsDf df : ℚ) / (volCallsDf df : ℚ)) := by
  refine ⟨volumeAnalyze_some df h, ?_, ?_⟩
  · intro h0
    show volPutCallRatioDf df = 0
    rw [volPutCallRatioDf, h0]
    norm_num
  · intro h0
    show volPutCallRatioDf df = _
    rw [volPutCallRatioDf, if_pos (Nat.pos_of_ne_zero h0)]

/-- C4 witness: an all-PUT snapshot (CALL volume 0) yields ratio 0. -/
theorem vol_put_call_ratio_zero_floor_witness :
    dfW4.contratos ≠ [] ∧ volCallsDf dfW4 = 0
    ∧ (volumeAnalyze (some dfW4)).1 = some (volumeAnalysisOf dfW4)
    ∧ (volumeAnalysisOf dfW4).vol_put_call_ratio = 0 := by
  refine ⟨by decide, by decide, ?_, ?_⟩
  · exact (vol_put_call_ratio_zero_floor dfW4 (by decide)).1
  · exact (vol_put_call_ratio_zero_floor dfW4 (by decide)).2.1 (by decide)

/-- C5: `rotacion_promedio` is the arithmetic mean over all contracts of the
per-contract rotation (`volume/openInterest` when `openInterest > 0`, else 0);
when every contract has zero open interest the mean and the
high-rotation count are both 0 with no division fault; and on `dfC5` the mean
of ratios differs from aggregate-volume / aggregate-OI, so the code computes
the former, not the latter. -/
theorem rotacion_promedio_mean_of_ratios :
    (∀ df : DataFrame, df.contratos ≠ [] →
        (volumeAnalyze (some df)).1 = some (volumeAnalysisOf df)
        ∧ (volumeAnalysisOf df).rotacion_promedio
            = (df.contratos.map rotacion).sum / (df.contratos.length : ℚ)
        ∧ ((∀ c ∈ df.contratos, c.openInterest = 0) →
            (volumeAnalysisOf df).rotacion_promedio = 0
            ∧ (volumeAnalysisOf df).alta_rotacion_count = 0))
    ∧ (volumeAnalysisOf dfC5).rotacion_promedio
        ≠ (volSum dfC5.contratos : ℚ) / (oiSum dfC5.contratos : ℚ) := by
  constructor
  · intro df h
    refine ⟨volumeAnalyze_some df h, ?_, ?_⟩
    · show rotacionPromedioDf df = _
      rw [rotacionPromedioDf, rotacionCol, List.length_map]
    · intro hz
      constructor
      · show rotacionPromedioDf df = 0
        have hs : (rotacionCol df).sum = 0 := by
          apply List.sum_eq_zero
          intro x hx
          obtain ⟨c, hc, rfl⟩ := List.mem_map.mp hx
          simp [rotacion, hz c hc]
        rw [rotacionPromedioDf, hs, zero_div]
      · show altaRotacionCountDf df = 0
        rw [altaRotacionCountDf, List.length_eq_zero, List.filter_eq_nil_iff]
        intro c hc
        simp only [decide_eq_true_eq, not_lt]
        rw [rotacion, if_neg (by rw [hz c hc]; exact lt_irrefl 0)]
        norm_num
  · show rotacionPromedioDf dfC5 ≠ _
    rw [rotacionPromedioDf]
    norm_num [rotacionCol, dfC5, mkContrato, rotacion, volSum, oiSum]

/-- C5 witness: a snapshot whose contracts all have `openInterest = 0` gives
mean rotation 0 and high-rotation count 0. -/
theorem rotacion_promedio_mean_of_ratios_witness :
    dfZ5.contratos ≠ [] ∧ (∀ c ∈ dfZ5.contratos, c.openInterest = 0)
    ∧ (volumeAnalysisOf dfZ5).rotacion_promedio = 0
    ∧ (volumeAnalysisOf dfZ5).alta_rotacion_count = 0 := by
  refine ⟨by decide, by decide, ?_⟩
  exact (rotacion_promedio_mean_of_ratios.1 dfZ5 (by decide)).2.2 (by decide)

/-- C9: the moneyness weight denominator carries a 0.01 floor and is never 0;
for every non-empty snapshot with a moneyness column, `vol_put_call_ponderado`
is 0 when the weighted CALL volume is 0 and equals weighted-PUT over
weighted-CALL volume otherwise. -/
theorem vol_put_call_ponderado_weighted (df : DataFrame) (h : df.contratos ≠ [])
    (hm : df.hasMoneyness = true) :
    (volumeAnalyze (some df)).1 = some (volumeAnalysisOf df)
    ∧ (∀ c : Contrato, |c.moneyness - 1| + 1/100 ≠ 0)
    ∧ (volCallsPondDf df = 0 → (volumeAnalysisOf df).vol_put_call_ponderado = some 0)
    ∧ (volCallsPondDf df ≠ 0 →
        (volumeAnalysisOf df).vol_put_call_ponderado
          = some (volPutsPondDf df / volCallsPondDf df)) := by
  refine ⟨volumeAnalyze_some df h, ?_, ?_, ?_⟩
  · intro c
    have hp : (0 : ℚ) < |c.moneyness - 1| + 1/100 := by positivity
    exact hp.ne'
  · intro h0
    show (if df.hasMoneyness then some (volPutCallPonderadoDf df) else none) = some 0
    rw [hm, if_pos rfl, volPutCallPonderadoDf, h0]
    norm_num
  · intro h0
    have hpos : 0 < volCallsPondDf df := lt_of_le_of_ne (volPonderado_nonneg _) (Ne.symm h0)
    show (if df.hasMoneyness then some (volPutCallPonderadoDf df) else none) = _
    rw [hm, if_pos rfl, volPutCallPonderadoDf, if_pos hpos]

/-- C9 witness: one at-the-money CALL gives weighted call volume 100 ≠ 0 and
the weighted ratio. -/
theorem vol_put_call_ponderado_weighted_witness :
    dfW9.contratos ≠ [] ∧ dfW9.hasMoneyness = true ∧ volCallsPondDf dfW9 ≠ 0
    ∧ (volumeAnalysisOf dfW9).vol_put_call_ponderado
        = some (volPutsPondDf dfW9 / volCallsPondDf dfW9) := by
  have hfil : dfW9.contratos.filter (esTipo "CALL") = [mkContrato "CALL" 100 1 10 1 "OTM"] := by
    decide
  have hcp : volCallsPondDf dfW9 ≠ 0 := by
    norm_num [volCallsPondDf, volPonderado, hfil, pesoDistancia, mkContrato]
  exact ⟨by decide, by decide, hcp,
    (vol_put_call_ponderado_weighted dfW9 (by decide) (by decide)).2.2.2 hcp⟩

/-- C1 zero-OI input: total open interest 0. -/
def dfC1zero : DataFrame :=
  { contratos := [mkContrato "CALL" 100 5 0 1 "OTM"]
    hasItmOtm := false
    hasMoneyness := false
    extraCols := [] }

/-- C1: the code sums the 5 largest individual contract ROWS by OI
(`nlargest(5, 'openInterest')`), not the 5 strikes with the highest aggregate
OI summed across CALL and PUT as its own comment, alert message and result
dataclass describe: on `dfC1` (strike 100 aggregates 18 across CALL+PUT, six
other strikes hold 10 each) the code returns 2500/39 ≈ 64.1 while the
documented strike-grouped formula gives 2900/39 ≈ 74.4.  The claim's
even-spread (25), single-strike (100) and zero-OI (0) cases do hold, because
there each strike has at most one row. -/
theorem oi_concentration_top5_rows_not_strikes :
    0 < oiSum dfC1.contratos
    ∧ openInterestAnalyze (some dfC1) = some (oiAnalysisOf dfC1)
    ∧ (oiAnalysisOf dfC1).oi_concentration = 2500/39
    ∧ specOiConcentracionPorStrike dfC1.contratos = 2900/39
    ∧ (2500 : ℚ)/39 ≠ 2900/39
    ∧ (oiAnalysisOf dfC1spread).oi_concentration = 25
    ∧ (oiAnalysisOf dfC1single).oi_concentration = 100
    ∧ (oiAnalysisOf dfC1zero).oi_concentration = 0 := by
  have h1 : top5OiDf dfC1 = 50 := by decide
  have h2 : oiSum dfC1.contratos = 78 := by decide
  have h4 : nlargestSum 5 (specOiPorStrike dfC1.contratos) = 58 := by decide
  have h5 : top5OiDf dfC1spread = 25 := by decide
  have h6 : oiSum dfC1spread.contratos = 100 := by decide
  have h7 : top5OiDf dfC1single = 100 := by decide
  have h8 : oiSum dfC1single.contratos = 100 := by decide
  have h9 : oiSum dfC1zero.contratos = 0 := by decide
  refine ⟨by decide, ?_, ?_, ?_, by norm_num, ?_, ?_, ?_⟩
  · simp [openInterestAnalyze]
    decide
  · show oiConcentrationDf dfC1 = 2500/39
    rw [oiConcentrationDf, h1, h2]
    norm_num
  · rw [specOiConcentracionPorStrike, h4, h2]
    norm_num
  · show oiConcentrationDf dfC1spread = 25
    rw [oiConcentrationDf, h5, h6]
    norm_num
  · show oiConcentrationDf dfC1single = 100
    rw [oiConcentrationDf, h7, h8]
    norm_num
  · show oiConcentrationDf dfC1zero = 0
    rw [oiConcentrationDf, h9]
    norm_num

/-- C3 counterexample: `VolumeAnalyzer.analyze` does NOT leave the input table
unchanged — on `dfC3` (no extra columns on entry) the argument ends up with the
two derived columns `vol_oi_individual` and `peso_distancia` appended. -/
theorem volume_analyze_mutates_input :
    dfC3.extraCols.map Prod.fst = []
    ∧ (volumeAnalyze (some dfC3)).2.map (fun d => d.extraCols.map Prod.fst)
        = some ["vol_oi_individual", "peso_distancia"] := by
  constructor
  · rfl
  · decide

/-- C3 (amended): `analyze` never touches the contract rows, the column
presence flags or any unrelated column; its only effect on the argument table
is adding (or overwriting) the derived `vol_oi_individual` column and — when a
moneyness column exists — the `peso_distancia` column.  An empty table is
returned untouched. -/
theorem volume_analyze_frame (df : DataFrame) :
    (df.contratos = [] → (volumeAnalyze (some df)).2 = some df)
    ∧ (df.contratos ≠ [] →
        (volumeAnalyze (some df)).2 = some (volumePostState df)
        ∧ (volumePostState df).contratos = df.contratos
        ∧ (volumePostState df).hasItmOtm = df.hasItmOtm
        ∧ (volumePostState df).hasMoneyness = df.hasMoneyness
        ∧ (∀ kv ∈ df.extraCols, kv.1 ≠ "vol_oi_individual" → kv.1 ≠ "peso_distancia" →
            kv ∈ (volumePostState df).extraCols)
        ∧ (∀ kv ∈ (volumePostState df).extraCols,
            kv ∈ df.extraCols ∨ kv.1 = "vol_oi_individual" ∨ kv.1 = "peso_distancia")) := by
  constructor
  · intro h
    simp [volumeAnalyze, h]
  · intro h
    have he := isEmpty_false_of_ne_nil h
    by_cases hm : df.hasMoneyness
    · refine ⟨by simp [volumeAnalyze, he], ?_, ?_, ?_, ?_, ?_⟩
      · simp [volumePostState, hm, dfSetCol_contratos]
      · simp [volumePostState, hm, dfSetCol_hasItmOtm]
      · simp [volumePostState, hm, dfSetCol_hasMoneyness]
      · intro kv hkv h1 h2
        simp only [volumePostState, hm, if_true]
        exact mem_dfSetCol_of_ne _ _ _ kv (mem_dfSetCol_of_ne _ _ _ kv hkv h1) h2
      · intro kv hkv
        simp only [volumePostState, hm, if_true] at hkv
        rcases mem_of_mem_dfSetCol _ _ _ _ hkv with h' | h'
        · rcases mem_of_mem_dfSetCol _ _ _ _ h' with h'' | h''
          · exact Or.inl h''
          · exact Or.inr (Or.inl h'')
        · exact Or.inr (Or.inr h')
    · refine ⟨by simp [volumeAnalyze, he], ?_, ?_, ?_, ?_, ?_⟩
      · simp [volumePostState, hm, dfSetCol_contratos]
      · simp [volumePostState, hm, dfSetCol_hasItmOtm]
      · simp [volumePostState, hm, dfSetCol_hasMoneyness]
      · intro kv hkv h1 h2
        simp only [volumePostState, hm, if_false]
        exact mem_dfSetCol_of_ne _ _ _ kv hkv h1
      · intro kv hkv
        simp only [volumePostState, hm, if_false] at hkv
        rcases mem_of_mem_dfSetCol _ _ _ _ hkv with h' | h'
        · exact Or.inl h'
        · exact Or.inr (Or.inl h')

/-- C3 witness: on a non-empty table carrying an unrelated `lastPrice` column,
the frame property holds concretely. -/
theorem volume_analyze_frame_witness :
    dfW3.contratos ≠ []
    ∧ ((volumeAnalyze (some dfW3)).2 = some (volumePostState dfW3)
        ∧ (volumePostState dfW3).contratos = dfW3.contratos
        ∧ (volumePostState dfW3).hasItmOtm = dfW3.hasItmOtm
        ∧ (volumePostState dfW3).hasMoneyness = dfW3.hasMoneyness
        ∧ (∀ kv ∈ dfW3.extraCols, kv.1 ≠ "vol_oi_individual" → kv.1 ≠ "peso_distancia" →
            kv ∈ (volumePostState dfW3).extraCols)
        ∧ (∀ kv ∈ (volumePostState dfW3).extraCols,
            kv ∈ dfW3.extraCols ∨ kv.1 = "vol_oi_individual" ∨ kv.1 = "peso_distancia")) :=
  ⟨by decide, (volume_analyze_frame dfW3).2 (by decide)⟩

/-- C2 counterexample: with an event inside the lookahead window and a
pre-event put/call ratio of 1.3 (above the claimed 1.2 threshold),
`EventsAnalyzer.get_alerts` emits NO alert at all — the code's defensive
pre-event rule fires only above 1.5, and with MEDIA (not ALTA) priority. -/
theorem pre_event_defensive_claim_counterexample :
    aC2.eventos ≠ []
    ∧ ("earnings_season", some mC2) ∈ aC2.metricas_pre_evento
    ∧ Config.UMBRAL_PCR_DEFENSIVO < mC2.pcr_ratio
    ∧ eventsGetAlerts "SPY" (some aC2) = [] := by
  refine ⟨by decide, List.mem_cons_self _ _, ?_, ?_⟩
  · norm_num [Config.UMBRAL_PCR_DEFENSIVO, mC2]
  · norm_num [eventsGetAlerts, aC2, evC2, alertasPreEvento, mC2]

/-- C2 (amended): for every analysis result with at least one detected event,
each pre-event metrics entry whose put/call ratio EXCEEDS 1.5 produces the
pre-event defensive alert (category in its description, MEDIA priority) for
that event category, and when every entry's ratio is at most 1.5 no defensive
pre-event alert is emitted at all. -/
theorem pre_event_defensive_threshold_and_priority (s : String) (a : AnalisisEventos) :
    (∀ tipo, ∀ m : Option PreEventMetrics, a.eventos ≠ [] →
        (tipo, m) ∈ a.metricas_pre_evento →
        3/2 < (m.map (fun x => x.pcr_ratio)).getD 0 →
        (alertaDefensiva ((m.map (fun x => x.pcr_ratio)).getD 0) tipo).prioridad = "MEDIA"
        ∧ alertaDefensiva ((m.map (fun x => x.pcr_ratio)).getD 0) tipo
            ∈ eventsGetAlerts s (some a))
    ∧ ((∀ tm ∈ a.metricas_pre_evento, (tm.2.map (fun x => x.pcr_ratio)).getD 0 ≤ 3/2) →
        ∀ al ∈ eventsGetAlerts s (some a), al.tipo ≠ "VOLUMEN_DEFENSIVO_PRE_EVENTO") := by
  constructor
  · intro tipo m hev hmem hpcr
    refine ⟨rfl, ?_⟩
    simp only [eventsGetAlerts]
    refine List.mem_append.mpr (Or.inl (List.mem_append.mpr (Or.inr ?_)))
    rw [isEmpty_false_of_ne_nil hev]
    simp only [Bool.false_eq_true, if_false]
    refine List.mem_flatMap.mpr ⟨(tipo, m), hmem, ?_⟩
    simp only [alertasPreEvento]
    rw [if_pos hpcr]
    exact List.mem_singleton.mpr rfl
  · intro hall al hal
    simp only [eventsGetAlerts] at hal
    rcases List.mem_append.mp hal with h12 | h3
    · rcases List.mem_append.mp h12 with h1 | h2
      · split at h1
        · exact absurd h1 (List.not_mem_nil al)
        · have hx := List.mem_singleton.mp h1
          subst hx
          exact (by decide : ("EVENTO_INMINENTE" : String) ≠ "VOLUMEN_DEFENSIVO_PRE_EVENTO")
      · split at h2
        · exact absurd h2 (List.not_mem_nil al)
        · obtain ⟨tm, htm, hin⟩ := List.mem_flatMap.mp h2
          have hle := hall tm htm
          simp only [alertasPreEvento] at hin
          rw [if_neg (not_lt.mpr hle)] at hin
          split at hin
          · have hx := List.mem_singleton.mp hin
            subst hx
            exact (by decide : ("VOLUMEN_OFENSIVO_PRE_EVENTO" : String) ≠ "VOLUMEN_DEFENSIVO_PRE_EVENTO")
          · exact absurd hin (List.not_mem_nil al)
    · split at h3
      · have hx := List.mem_singleton.mp h3
        subst hx
        exact (by decide : ("MULTIPLES_EVENTOS" : String) ≠ "VOLUMEN_DEFENSIVO_PRE_EVENTO")
      · exact absurd h3 (List.not_mem_nil al)

/-- C2 witness: a pre-event ratio of 2 (> 1.5) produces the MEDIA-priority
defensive alert for its category. -/
theorem pre_event_defensive_threshold_and_priority_witness :
    aW2.eventos ≠ [] ∧ ("fomc_meetings", some mW2) ∈ aW2.metricas_pre_evento
    ∧ (3 : ℚ)/2 < ((some mW2).map (fun x => x.pcr_ratio)).getD 0
    ∧ (alertaDefensiva (((some mW2).map (fun x => x.pcr_ratio)).getD 0)
        "fomc_meetings").prioridad = "MEDIA"
    ∧ alertaDefensiva (((some mW2).map (fun x => x.pcr_ratio)).getD 0) "fomc_meetings"
        ∈ eventsGetAlerts "AAPL" (some aW2) := by
  have hpcr : (3 : ℚ)/2 < ((some mW2).map (fun x => x.pcr_ratio)).getD 0 := by
    norm_num [mW2]
  have h := (pre_event_defensive_threshold_and_priority "AAPL" aW2).1 "fomc_meetings"
    (some mW2) (by decide) (List.mem_cons_self _ _) hpcr
  exact ⟨by decide, List.mem_cons_self _ _, hpcr, h.1, h.2⟩
